import Mathlib

/-!
Shallow embedding of the page-interactivity module of the wolf-byte-showcase
repository (src/assets/js/main.js), together with theorems settling the
behavioural claims of its specification.  JavaScript numbers are modelled as
exact rationals, DOM elements as records of the style fields the code touches,
`querySelector` results as `Option`, and a dereference of a missing element as
an explicit `typeError` outcome.
-/

namespace WolfByte

/-! ### Counter animator: text parsing (main.js lines 62-69)

`animateValue` reads `element.textContent`, tests `text.includes('%')`,
`text.includes('+')`, `text.includes('-')`, and computes
`parseInt(text.replace(/[^0-9]/g, ''))`, returning early when that is `NaN`. -/

/-- Model of `text.replace(/[^0-9]/g, '')`: keep only digit characters. -/
def stripNonDigits (text : String) : String :=
  String.mk (text.data.filter Char.isDigit)

/-- Model of `parseInt` applied to a digits-only string: `NaN` (here `none`)
exactly when the string is empty, otherwise the denoted natural number. -/
def parseIntDigits (s : String) : Option ℕ :=
  if s.data = [] then none
  else some (s.data.foldl (fun acc c => 10 * acc + (c.toNat - 48)) 0)

/-- The data `animateValue` extracts from the element text before animating. -/
structure CounterParse where
  hasPercent : Bool
  hasPlus : Bool
  hasMinus : Bool
  value : ℕ
  deriving DecidableEq

/-- Model of the parsing phase of `animateValue` (main.js lines 63-69):
flags from `includes` tests anywhere in the text, magnitude from
`parseInt(text.replace(/[^0-9]/g, ''))`; `none` models the early `return`
on `isNaN`. -/
def parseCounter (text : String) : Option CounterParse :=
  match parseIntDigits (stripNonDigits text) with
  | none => none
  | some v =>
      some { hasPercent := decide ('%' ∈ text.data)
           , hasPlus := decide ('+' ∈ text.data)
           , hasMinus := decide ('-' ∈ text.data)
           , value := v }

/-- The value denoted by the subsequence of all digit characters of `text`,
in order (an independent characterisation used to state the amended parsing
claim). -/
def digitsValue (text : String) : ℕ :=
  text.data.foldl (fun acc c => if c.isDigit then 10 * acc + (c.toNat - 48) else acc) 0

/-! ### Counter animator: the interval loop (main.js lines 71-90)

`duration = 2000`, `stepTime = 50`, `steps = 40`, `increment = value / steps`,
`current` starts at `0`; every tick does `current += increment`, clamps to the
target and clears the timer when `current >= numericValue`, then displays
`Math.floor(current)` with the detected decorations reapplied. -/

/-- One `setInterval` tick of the counter: the pair is (`current`, timer
cleared).  A cleared timer ticks no more, so a cleared state is frozen. -/
def counterStep (target : ℚ) (s : ℚ × Bool) : ℚ × Bool :=
  if s.2 then s
  else
    let c2 := s.1 + target / 40
    if target ≤ c2 then (target, true) else (c2, false)

/-- State of the counter loop after `n` ticks. -/
def counterState (target : ℚ) : ℕ → ℚ × Bool
  | 0 => ((0 : ℚ), false)
  | n + 1 => counterStep target (counterState target n)

/-- The numeric value displayed at tick `n`: `Math.floor(current)`. -/
def displayedValue (target : ℚ) (n : ℕ) : ℤ :=
  ⌊(counterState target n).1⌋

/-- Reapply the detected decorations (main.js lines 84-87): `'-' +`, then
`'+' +`, then `+ '%'`. -/
def formatDisplay (p : CounterParse) (v : ℤ) : String :=
  let s := toString v
  let s := if p.hasMinus then "-" ++ s else s
  let s := if p.hasPlus then "+" ++ s else s
  if p.hasPercent then s ++ "%" else s

/-- The element's text content at tick `n` of the animation: unchanged when
parsing failed (early return) or before the first tick, otherwise the
formatted floor of `current`. -/
def counterTextAt (text : String) (n : ℕ) : String :=
  match parseCounter text with
  | none => text
  | some p => if n = 0 then text else formatDisplay p (displayedValue (p.value : ℚ) n)

/-! ### One-shot intersection observers (main.js lines 49-56, 95-105, 163-170, 277-284)

All four observers share one pattern: on an intersecting entry, run the
animation action on the target and `unobserve` it.  The browser delivers an
entry only for a target that is still observed at delivery time; `unobserve`
removes the target from the observed set, so later entries for it are not
delivered. -/

/-- One record delivered to an observer callback. -/
structure ObsEntry (α : Type) where
  target : α
  isIntersecting : Bool

/-- Observer bookkeeping: the still-observed targets, and the log of targets
whose animation action has run (most recent first). -/
structure ObsState (α : Type) where
  observed : List α
  fired : List α

/-- Processing of one delivered entry: if it is intersecting (and hence its
target is still observed), run the action and `unobserve` the target
(main.js lines 50-55). -/
def obsProcess {α : Type} [DecidableEq α] (s : ObsState α) (e : ObsEntry α) : ObsState α :=
  if e.isIntersecting = true ∧ e.target ∈ s.observed then
    { observed := s.observed.erase e.target, fired := e.target :: s.fired }
  else s

/-- Run an observer from the initial `observe` calls over a whole delivery
sequence. -/
def obsRun {α : Type} [DecidableEq α] (init : List α) (es : List (ObsEntry α)) : ObsState α :=
  es.foldl obsProcess { observed := init, fired := [] }

/-- The observer invariant: the observed targets stay distinct, each action
has run at most once per target, and a still-observed target's action has
not yet run. -/
def obsInv {α : Type} [DecidableEq α] (s : ObsState α) : Prop :=
  s.observed.Nodup ∧ ∀ e : α, s.fired.count e ≤ 1 ∧ (e ∈ s.observed → s.fired.count e = 0)

/-! ### Scroll handlers (main.js lines 34-41 and 266-274)

`querySelector` results are modelled as `Option`; assigning to a style of a
missing element is a thrown `TypeError`. -/

/-- Outcome of a JavaScript statement that may dereference `null`. -/
inductive JsResult (α : Type) where
  | ok : α → JsResult α
  | typeError : JsResult α
  deriving DecidableEq

/-- The header element, reduced to the one style the handler writes. -/
structure HeaderEl where
  background : String
  deriving DecidableEq

/-- Background applied past 100px of scroll (main.js line 37). -/
def flatHeaderBg : String := "rgba(10, 10, 10, 0.98)"

/-- Background applied at 100px of scroll or less (main.js line 39). -/
def gradientHeaderBg : String :=
  "linear-gradient(180deg, rgba(10,10,10,0.95) 0%, rgba(26,26,26,0.9) 100%)"

/-- Model of the navbar scroll handler (main.js lines 34-41).  The code reads
`header.style` with no existence check, so an absent header is a
`TypeError` on every scroll event. -/
def headerScrollHandler (header : Option HeaderEl) (scrollY : ℚ) : JsResult HeaderEl :=
  match header with
  | none => JsResult.typeError
  | some _ => JsResult.ok { background := if 100 < scrollY then flatHeaderBg else gradientHeaderBg }

/-- The hero content element, reduced to the two styles the handler writes:
the `translateY` amount in px and the opacity. -/
structure HeroEl where
  transformY : ℚ
  opacity : ℚ
  deriving DecidableEq

/-- `scrolled * 0.5` (main.js line 271). -/
def parallaxTranslate (scrolled : ℚ) : ℚ := scrolled * (1 / 2)

/-- `1 - (scrolled / 600)` (main.js line 272); no clamping. -/
def parallaxOpacity (scrolled : ℚ) : ℚ := 1 - scrolled / 600

/-- Model of the parallax scroll handler (main.js lines 266-274): guarded by
`if (heroContent)`, so an absent hero content is silently skipped. -/
def parallaxHandler (heroContent : Option HeroEl) (scrolled : ℚ) : JsResult (Option HeroEl) :=
  match heroContent with
  | none => JsResult.ok none
  | some _ =>
      JsResult.ok (some { transformY := parallaxTranslate scrolled
                        , opacity := parallaxOpacity scrolled })

/-! ### Contact form handler (main.js lines 114-143) -/

/-- Form state, reduced to what the handler reads and writes: the field
values and the submit control's label and background. -/
structure ContactFormState where
  fields : List (String × String)
  buttonText : String
  buttonBg : String
  deriving DecidableEq

/-- Label shown on the submit control after a submit (main.js line 128). -/
def successText : String := "✓ Mensaje Enviado!"

/-- Background shown on the submit control after a submit (main.js line 129). -/
def successBg : String := "linear-gradient(135deg, #2ecc71, #27ae60)"

/-- Background the 3000ms timeout writes back (main.js line 137): a fixed
gradient, not the saved original background. -/
def restoredBg : String := "linear-gradient(135deg, var(--lannister-gold), var(--lannister-red))"

/-- Everything the submit handler does, as one record: whether default
navigation was prevented, the logged field data, the state right after the
handler, and the state after the 3000ms timeout. -/
structure SubmitOutcome where
  preventedDefault : Bool
  loggedData : List (String × String)
  immediate : ContactFormState
  afterTimeout : ContactFormState
  deriving DecidableEq

/-- Model of the submit handler (main.js lines 117-142): prevent default,
collect the field values, swap in the success label and colour, reset the
form, and after 3000ms restore the saved label and write the fixed default
gradient. -/
def submitHandler (st : ContactFormState) : SubmitOutcome :=
  let data := st.fields
  let originalText := st.buttonText
  { preventedDefault := true
  , loggedData := data
  , immediate := { fields := [], buttonText := successText, buttonBg := successBg }
  , afterTimeout := { fields := [], buttonText := originalText, buttonBg := restoredBg } }

/-! ### Canvas chart renderer (main.js lines 175-264) -/

/-- The fixed twelve-sample dataset (main.js line 176). -/
def chartData : List ℚ := [65, 78, 85, 72, 90, 95, 88, 92, 97, 100, 105, 110]

/-- `Math.max(...data)` (main.js line 218). -/
def chartMaxValue : ℚ := chartData.foldl max 0

/-- `Math.floor(data.length * progress)` (main.js line 219): the number of
samples sliced for this frame. -/
def visiblePointCount (progress : ℚ) : ℕ :=
  (⌊(chartData.length : ℚ) * progress⌋).toNat

/-- The plotted points of one frame (main.js lines 219-223): slice the first
`visiblePointCount` samples and map each to plot coordinates, x evenly
spaced by index, y scaled so the dataset maximum reaches the plot top. -/
def chartPointsAt (width height progress : ℚ) : List (ℚ × ℚ) :=
  let padding : ℚ := 40
  let chartWidth := width - padding * 2
  let chartHeight := height - padding * 2
  (chartData.take (visiblePointCount progress)).enum.map (fun iv =>
    (padding + (chartWidth / ((chartData.length : ℚ) - 1)) * (iv.1 : ℚ),
     height - padding - (iv.2 / chartMaxValue) * chartHeight))

/-- The area fill, line stroke and point circles are drawn exactly under the
guard `points.length > 1` (main.js line 225). -/
def chartDrawsDetail (width height progress : ℚ) : Prop :=
  1 < (chartPointsAt width height progress).length

/-- `progress = Math.min((currentTime - startTime) / animationDuration, 1)`
(main.js line 202), as a function of elapsed wall-clock time. -/
def chartProgress (elapsed : ℚ) : ℚ := min (elapsed / 2000) 1

/-- The frame loop schedules another frame exactly when `progress < 1`
(main.js lines 258-260). -/
def chartReschedules (elapsed : ℚ) : Prop := chartProgress elapsed < 1

/-! ### Lemmas about the counter loop -/


theorem counterState_succ (t : ℚ) (n : ℕ) :
    counterState t (n + 1) = counterStep t (counterState t n) := rfl

theorem counterStep_of_cleared (t : ℚ) (s : ℚ × Bool) (h : s.2 = true) :
    counterStep t s = s := by
  simp [counterStep, h]

theorem counterStep_of_not_cleared (t : ℚ) (s : ℚ × Bool) (h : s.2 = false) :
    counterStep t s =
      if t ≤ s.1 + t / 40 then (t, true) else (s.1 + t / 40, false) := by
  simp [counterStep, h]

theorem counterState_cleared_mono (t : ℚ) {m n : ℕ} (hmn : m ≤ n)
    (h : (counterState t m).2 = true) : (counterState t n).2 = true := by
  induction n with
  | zero =>
      have hm : m = 0 := Nat.le_zero.mp hmn
      rw [← hm]; exact h
  | succ k ih =>
      rcases Nat.lt_or_ge m (k + 1) with hlt | hge
      · have hk : (counterState t k).2 = true := ih (by omega)
        rw [counterState_succ, counterStep_of_cleared t _ hk]
        exact hk
      · have hm : m = k + 1 := by omega
        rw [← hm]; exact h

theorem counterState_bounds (t : ℚ) (ht : 0 ≤ t) (n : ℕ) :
    0 ≤ (counterState t n).1 ∧ (counterState t n).1 ≤ t := by
  induction n with
  | zero => exact ⟨le_refl 0, ht⟩
  | succ k ih =>
      rw [counterState_succ]
      cases hc : (counterState t k).2 with
      | true =>
          rw [counterStep_of_cleared t _ hc]
          exact ih
      | false =>
          rw [counterStep_of_not_cleared t _ hc]
          by_cases hle : t ≤ (counterState t k).1 + t / 40
          · rw [if_pos hle]
            exact ⟨ht, le_refl t⟩
          · rw [if_neg hle]
            have h40 : (0:ℚ) ≤ t / 40 := by positivity
            exact ⟨by simpa using add_nonneg ih.1 h40, le_of_lt (lt_of_not_le hle)⟩

theorem counterState_mono (t : ℚ) (ht : 0 ≤ t) (n : ℕ) :
    (counterState t n).1 ≤ (counterState t (n + 1)).1 := by
  rw [counterState_succ]
  cases hc : (counterState t n).2 with
  | true => rw [counterStep_of_cleared t _ hc]
  | false =>
      rw [counterStep_of_not_cleared t _ hc]
      by_cases hle : t ≤ (counterState t n).1 + t / 40
      · rw [if_pos hle]
        exact (counterState_bounds t ht n).2
      · rw [if_neg hle]
        have h40 : (0:ℚ) ≤ t / 40 := by positivity
        simpa using h40

theorem counterState_val_of_not_cleared (t : ℚ) {n : ℕ}
    (h : (counterState t n).2 = false) :
    (counterState t n).1 = (n : ℚ) * (t / 40) := by
  induction n with
  | zero => simp [counterState]
  | succ k ih =>
      have hk : (counterState t k).2 = false := by
        cases hb : (counterState t k).2 with
        | false => rfl
        | true =>
            have := counterState_cleared_mono t (Nat.le_succ k) hb
            rw [this] at h
            exact absurd h (by simp)
      rw [counterState_succ, counterStep_of_not_cleared t _ hk] at h ⊢
      by_cases hle : t ≤ (counterState t k).1 + t / 40
      · rw [if_pos hle] at h
        exact absurd h (by simp)
      · rw [if_neg hle]
        rw [ih hk]
        push_cast
        ring

theorem counterState_val_of_cleared (t : ℚ) {n : ℕ}
    (h : (counterState t n).2 = true) : (counterState t n).1 = t := by
  induction n with
  | zero => simp [counterState] at h
  | succ k ih =>
      rw [counterState_succ] at h ⊢
      cases hk : (counterState t k).2 with
      | true =>
          rw [counterStep_of_cleared t _ hk] at h ⊢
          exact ih hk
      | false =>
          rw [counterStep_of_not_cleared t _ hk] at h ⊢
          by_cases hle : t ≤ (counterState t k).1 + t / 40
          · rw [if_pos hle]
          · rw [if_neg hle] at h
            exact absurd h (by simp)

theorem counterState_cleared_at_41 (t : ℚ) (ht : 0 ≤ t) :
    (counterState t 41).2 = true := by
  cases h40 : (counterState t 40).2 with
  | true => exact counterState_cleared_mono t (by omega) h40
  | false =>
      have hv := counterState_val_of_not_cleared t h40
      have h41 : counterState t 41 = counterStep t (counterState t 40) := rfl
      rw [h41, counterStep_of_not_cleared t _ h40]
      have hle : t ≤ (counterState t 40).1 + t / 40 := by
        rw [hv]
        have h0 : (0:ℚ) ≤ t / 40 := by positivity
        push_cast
        linarith
      rw [if_pos hle]

theorem counterState_frozen (t : ℚ) (ht : 0 ≤ t) {n : ℕ} (hn : 41 ≤ n) :
    counterState t n = counterState t 41 := by
  induction n with
  | zero => omega
  | succ k ih =>
      rcases Nat.lt_or_ge 41 (k + 1) with hlt | hge
      · have hk : counterState t k = counterState t 41 := ih (by omega)
        rw [counterState_succ, hk,
          counterStep_of_cleared t _ (counterState_cleared_at_41 t ht)]
      · have h41 : k + 1 = 41 := by omega
        rw [h41]

/-! ### Lemmas about the one-shot observers -/

theorem obsProcess_inv {α : Type} [DecidableEq α] {s : ObsState α}
    (hs : obsInv s) (e : ObsEntry α) : obsInv (obsProcess s e) := by
  obtain ⟨hnd, hcnt⟩ := hs
  unfold obsProcess
  by_cases hc : e.isIntersecting = true ∧ e.target ∈ s.observed
  · rw [if_pos hc]
    refine ⟨List.Nodup.erase e.target hnd, ?_⟩
    intro x
    constructor
    · rw [List.count_cons]
      by_cases hx : e.target = x
      · have h0 : s.fired.count x = 0 := (hcnt x).2 (hx ▸ hc.2)
        simp [hx, h0]
      · simp [hx]
        exact (hcnt x).1
    · intro hxmem
      have hx : x ≠ e.target ∧ x ∈ s.observed :=
        (List.Nodup.mem_erase_iff hnd).mp hxmem
      rw [List.count_cons]
      have h0 : s.fired.count x = 0 := (hcnt x).2 hx.2
      have hne : e.target ≠ x := fun h => hx.1 h.symm
      simp [h0, hne]
  · rw [if_neg hc]
    exact ⟨hnd, hcnt⟩

theorem obsFoldl_inv {α : Type} [DecidableEq α] {s : ObsState α}
    (hs : obsInv s) (es : List (ObsEntry α)) : obsInv (es.foldl obsProcess s) := by
  induction es generalizing s with
  | nil => exact hs
  | cons d ds ih =>
      rw [List.foldl_cons]
      exact ih (obsProcess_inv hs d)

theorem obsRun_inv {α : Type} [DecidableEq α] (init : List α) (hnd : init.Nodup)
    (es : List (ObsEntry α)) : obsInv (obsRun init es) := by
  have hbase : obsInv ({ observed := init, fired := [] } : ObsState α) := by
    refine ⟨hnd, ?_⟩
    intro e
    simp [List.count_nil]
  exact obsFoldl_inv hbase es

/-! ### Remaining helper lemmas -/

theorem foldl_digits_filter (l : List Char) (acc : ℕ) :
    (l.filter Char.isDigit).foldl (fun a c => 10 * a + (c.toNat - 48)) acc
      = l.foldl (fun a c => if c.isDigit then 10 * a + (c.toNat - 48) else a) acc := by
  induction l generalizing acc with
  | nil => rfl
  | cons c cs ih =>
      by_cases hc : c.isDigit
      · simp [List.filter_cons, hc, ih]
      · simp [List.filter_cons, hc, ih]

theorem chartPointsAt_length (w h q : ℚ) :
    (chartPointsAt w h q).length = min (visiblePointCount q) 12 := by
  simp [chartPointsAt, List.enum_length, List.length_take, chartData]

theorem visiblePointCount_eq (q : ℚ) :
    visiblePointCount q = (⌊(12 : ℚ) * q⌋).toNat := by
  simp [visiblePointCount, chartData]

/-! ### The claims -/

/-- Claim C1: for every counter element whose text contains a digit, once the
interval loop clears its timer the displayed text is exactly the parsed
magnitude with the detected decorations reapplied; the timer clears (by tick
41); and no displayed value ever exceeds the target. -/
theorem c1_counter_final_exact (text : String) (p : CounterParse)
    (hp : parseCounter text = some p) :
    (∀ n, n ≠ 0 → (counterState (p.value : ℚ) n).2 = true →
        counterTextAt text n = formatDisplay p (p.value : ℤ)) ∧
    (counterState (p.value : ℚ) 41).2 = true ∧
    (∀ n, displayedValue (p.value : ℚ) n ≤ (p.value : ℤ)) := by
  have ht : (0 : ℚ) ≤ (p.value : ℚ) := Nat.cast_nonneg _
  refine ⟨?_, counterState_cleared_at_41 _ ht, ?_⟩
  · intro n hn hcl
    have hv := counterState_val_of_cleared _ hcl
    simp only [counterTextAt, hp]
    rw [if_neg hn]
    unfold displayedValue
    rw [hv, Int.floor_natCast]
  · intro n
    unfold displayedValue
    calc ⌊(counterState ((p.value : ℕ) : ℚ) n).1⌋
        ≤ ⌊((p.value : ℕ) : ℚ)⌋ := Int.floor_le_floor (counterState_bounds _ ht n).2
      _ = (p.value : ℤ) := Int.floor_natCast _

theorem c1_counter_final_exact_witness :
    parseCounter "+500%" =
      some { hasPercent := true, hasPlus := true, hasMinus := false, value := 500 } ∧
    counterTextAt "+500%" 41 = "+500%" := by
  have H := c1_counter_final_exact "+500%"
      { hasPercent := true, hasPlus := true, hasMinus := false, value := 500 } (by decide)
  refine ⟨by decide, ?_⟩
  rw [H.1 41 (by decide) H.2.1]
  decide

/-- Claim C2 counterexample: the claim predicts magnitude 24 for the text
"24/7", but the code concatenates all digit runs and yields 247; and for
"5+" the plus flag is set although no plus sign is a text head. -/
theorem c2_parse_counterexample :
    parseCounter "24/7" =
      some { hasPercent := false, hasPlus := false, hasMinus := false, value := 247 } ∧
    (247 : ℕ) ≠ 24 ∧
    parseCounter "5+" =
      some { hasPercent := false, hasPlus := true, hasMinus := false, value := 5 } := by
  refine ⟨by decide, by decide, by decide⟩

/-- Claim C2 (amended): the decoration flags record the presence of the
characters anywhere in the text, and the magnitude is the integer denoted
by the subsequence of all digit characters in order. -/
theorem c2_parse_amended (text : String) (h : ∃ c ∈ text.data, c.isDigit) :
    ∃ p : CounterParse, parseCounter text = some p ∧
      (p.hasPercent = true ↔ '%' ∈ text.data) ∧
      (p.hasPlus = true ↔ '+' ∈ text.data) ∧
      (p.hasMinus = true ↔ '-' ∈ text.data) ∧
      p.value = digitsValue text := by
  have hdata : (stripNonDigits text).data = text.data.filter Char.isDigit := rfl
  have hne : ¬ (text.data.filter Char.isDigit = []) := by
    obtain ⟨c, hc, hd⟩ := h
    intro hcontra
    have hmem : c ∈ text.data.filter Char.isDigit := List.mem_filter.mpr ⟨hc, hd⟩
    rw [hcontra] at hmem
    exact List.not_mem_nil c hmem
  have hval : (text.data.filter Char.isDigit).foldl (fun a c => 10 * a + (c.toNat - 48)) 0
      = digitsValue text := foldl_digits_filter text.data 0
  refine ⟨{ hasPercent := decide ('%' ∈ text.data)
          , hasPlus := decide ('+' ∈ text.data)
          , hasMinus := decide ('-' ∈ text.data)
          , value := digitsValue text }, ?_, ?_, ?_, ?_, rfl⟩
  · simp only [parseCounter, parseIntDigits, hdata, hne, if_false, if_neg hne, hval]
  · exact decide_eq_true_iff
  · exact decide_eq_true_iff
  · exact decide_eq_true_iff

theorem c2_parse_amended_witness :
    (∃ c ∈ ("24/7").data, c.isDigit) ∧
    (∃ p : CounterParse, parseCounter "24/7" = some p ∧
      (p.hasPercent = true ↔ '%' ∈ ("24/7").data) ∧
      (p.hasPlus = true ↔ '+' ∈ ("24/7").data) ∧
      (p.hasMinus = true ↔ '-' ∈ ("24/7").data) ∧
      p.value = digitsValue "24/7") :=
  ⟨by decide, c2_parse_amended "24/7" (by decide)⟩

/-- Claim C3: for every one-shot observer (counter, chat bubble, card
reveal, chart), each element's animation action runs at most once per page
load: the trigger fires only for a still-observed target and unobserves it
at once. -/
theorem c3_observer_at_most_once {α : Type} [DecidableEq α] (init : List α)
    (hnd : init.Nodup) (es : List (ObsEntry α)) (e : α) :
    (obsRun init es).fired.count e ≤ 1 :=
  ((obsRun_inv init hnd es).2 e).1

theorem c3_observer_at_most_once_witness :
    (obsRun ([0, 1, 2] : List ℕ)
      [⟨1, true⟩, ⟨1, true⟩, ⟨0, false⟩]).fired.count 1 ≤ 1 :=
  c3_observer_at_most_once [0, 1, 2] (by decide) [⟨1, true⟩, ⟨1, true⟩, ⟨0, false⟩] 1

/-- Claim C4 counterexample: with the header element absent, the very first
scroll event already fails with a TypeError, so not every scroll handler
tolerates the absence. -/
theorem c4_header_absent_counterexample :
    headerScrollHandler none 150 = JsResult.typeError := rfl

/-- Claim C4 (amended): the parallax scroll handler is guarded and silently
skips when the hero content is absent, but the header scroll handler
dereferences the header without a check and throws a TypeError on every
scroll event when the header element is absent. -/
theorem c4_scroll_handlers_absence (s : ℚ) :
    parallaxHandler none s = JsResult.ok none ∧
    headerScrollHandler none s = JsResult.typeError :=
  ⟨rfl, rfl⟩

/-- Claim C5 counterexample: after the 3000ms timeout the submit control's
background is the hard-coded default gradient, not the saved original
background, so the original colour is not restored in general. -/
theorem c5_restore_counterexample :
    (submitHandler { fields := [("name", "Ana"), ("email", "a@b.com")]
                   , buttonText := "Enviar Mensaje"
                   , buttonBg := "blue" }).afterTimeout.buttonBg ≠ "blue" := by
  decide

/-- Claim C5 (amended): on submit the handler prevents default navigation,
collects all field values, shows the success label and colour, clears the
fields immediately, and after 3000ms restores the original label while
writing the fixed gold/red gradient as background. -/
theorem c5_submit_behavior (st : ContactFormState) :
    (submitHandler st).preventedDefault = true ∧
    (submitHandler st).loggedData = st.fields ∧
    (submitHandler st).immediate =
      { fields := [], buttonText := successText, buttonBg := successBg } ∧
    (submitHandler st).afterTimeout =
      { fields := [], buttonText := st.buttonText, buttonBg := restoredBg } :=
  ⟨rfl, rfl, rfl, rfl⟩

/-- Claim C6: for every scroll offset the parallax handler sets the hero's
vertical translation to half the offset and its opacity to one minus the
offset over 600, with no clamping: opacity is a half at 300, zero at 600,
and negative past 600. -/
theorem c6_parallax (h : HeroEl) (s : ℚ) (hs : 600 < s) :
    (∀ u : ℚ, parallaxHandler (some h) u =
      JsResult.ok (some { transformY := u * (1 / 2), opacity := 1 - u / 600 })) ∧
    parallaxHandler (some h) 300 =
      JsResult.ok (some { transformY := 150, opacity := 1 / 2 }) ∧
    parallaxHandler (some h) 600 =
      JsResult.ok (some { transformY := 300, opacity := 0 }) ∧
    parallaxOpacity s < 0 := by
  refine ⟨fun u => rfl, ?_, ?_, ?_⟩
  · simp only [parallaxHandler, parallaxTranslate, parallaxOpacity]
    norm_num
  · simp only [parallaxHandler, parallaxTranslate, parallaxOpacity]
    norm_num
  · unfold parallaxOpacity
    linarith

theorem c6_parallax_witness :
    (600 : ℚ) < 900 ∧ parallaxOpacity 900 < 0 :=
  ⟨by norm_num,
   (c6_parallax { transformY := 0, opacity := 1 } 900 (by norm_num)).2.2.2⟩

/-- Claim C7: in every chart frame with progress between 0 and 1 the number
of plotted points is the floor of twelve times the progress — twelve at
progress one, zero at progress zero — and the area fill, line stroke and
point circles are drawn exactly when at least two points are visible. -/
theorem c7_chart_points (w h q : ℚ) (h0 : 0 ≤ q) (h1 : q ≤ 1) :
    (((chartPointsAt w h q).length : ℤ) = ⌊(12 : ℚ) * q⌋) ∧
    (chartPointsAt w h 1).length = 12 ∧
    (chartPointsAt w h 0).length = 0 ∧
    (chartDrawsDetail w h q ↔ 2 ≤ (chartPointsAt w h q).length) := by
  have hfl0 : 0 ≤ ⌊(12 : ℚ) * q⌋ := Int.floor_nonneg.mpr (by positivity)
  have hfl12 : ⌊(12 : ℚ) * q⌋ ≤ 12 := by
    have h12 : (12 : ℚ) * q ≤ 12 := by nlinarith
    calc ⌊(12 : ℚ) * q⌋ ≤ ⌊(12 : ℚ)⌋ := Int.floor_le_floor h12
      _ = 12 := by norm_num
  have hmin : min (visiblePointCount q) 12 = visiblePointCount q := by
    apply min_eq_left
    rw [visiblePointCount_eq]
    exact Int.toNat_le.mpr (by exact_mod_cast hfl12)
  refine ⟨?_, ?_, ?_, ?_⟩
  · rw [chartPointsAt_length, hmin, visiblePointCount_eq]
    exact Int.toNat_of_nonneg hfl0
  · rw [chartPointsAt_length, visiblePointCount_eq]
    norm_num
    rfl
  · rw [chartPointsAt_length, visiblePointCount_eq]
    norm_num
  · unfold chartDrawsDetail
    omega

theorem c7_chart_points_witness :
    (0 : ℚ) ≤ 1 / 2 ∧ (1 : ℚ) / 2 ≤ 1 ∧
    (((chartPointsAt 400 200 (1 / 2)).length : ℤ) = ⌊(12 : ℚ) * (1 / 2)⌋) :=
  ⟨by norm_num, by norm_num,
   (c7_chart_points 400 200 (1 / 2) (by norm_num) (by norm_num)).1⟩

/-- Claim C8: for every counter element text with no digit, the animator
returns before starting any timer and the element's text is unchanged at
every tick. -/
theorem c8_no_digits (text : String) (h : ∀ c ∈ text.data, ¬ c.isDigit) :
    parseCounter text = none ∧ ∀ n, counterTextAt text n = text := by
  have hnil : (stripNonDigits text).data = [] := by
    show text.data.filter Char.isDigit = []
    exact List.filter_eq_nil_iff.mpr (fun a ha => by simpa using h a ha)
  have hp : parseCounter text = none := by
    simp only [parseCounter, parseIntDigits, hnil, if_pos]
  exact ⟨hp, fun n => by simp only [counterTextAt, hp]⟩

theorem c8_no_digits_witness :
    (∀ c ∈ ("N/A").data, ¬ c.isDigit) ∧
    parseCounter "N/A" = none ∧ counterTextAt "N/A" 5 = "N/A" :=
  ⟨by decide, (c8_no_digits "N/A" (by decide)).1, (c8_no_digits "N/A" (by decide)).2 5⟩

/-- Claim C9: the counter interval loop self-terminates — for every parsed
magnitude the timer is cleared within 41 ticks of the 40-step schedule —
and the chart frame loop stops rescheduling once its progress reaches 1,
which happens as soon as 2000ms have elapsed. -/
theorem c9_loops_terminate (v : ℕ) (e : ℚ) (he : 2000 ≤ e) :
    (counterState (v : ℚ) 41).2 = true ∧
    chartProgress e = 1 ∧ ¬ chartReschedules e := by
  have h1 : chartProgress e = 1 := by
    unfold chartProgress
    apply min_eq_right
    rw [le_div_iff₀ (by norm_num : (0 : ℚ) < 2000)]
    linarith
  refine ⟨counterState_cleared_at_41 _ (Nat.cast_nonneg v), h1, ?_⟩
  unfold chartReschedules
  rw [h1]
  exact lt_irrefl 1

theorem c9_loops_terminate_witness :
    (2000 : ℚ) ≤ 2500 ∧
    (counterState ((5 : ℕ) : ℚ) 41).2 = true ∧ chartProgress 2500 = 1 :=
  ⟨by norm_num, (c9_loops_terminate 5 2500 (by norm_num)).1,
   (c9_loops_terminate 5 2500 (by norm_num)).2.1⟩

/-- Claim C10: for every positive parsed magnitude, the displayed values are
monotonically non-decreasing across ticks and every displayed value is at
most the target, because the running value is clamped before each display. -/
theorem c10_display_monotone (v : ℕ) (_hv : 0 < v) :
    (∀ n, displayedValue (v : ℚ) n ≤ displayedValue (v : ℚ) (n + 1)) ∧
    (∀ n, displayedValue (v : ℚ) n ≤ (v : ℤ)) := by
  have ht : (0 : ℚ) ≤ (v : ℚ) := Nat.cast_nonneg v
  constructor
  · intro n
    unfold displayedValue
    exact Int.floor_le_floor (counterState_mono _ ht n)
  · intro n
    unfold displayedValue
    calc ⌊(counterState ((v : ℕ) : ℚ) n).1⌋
        ≤ ⌊((v : ℕ) : ℚ)⌋ := Int.floor_le_floor (counterState_bounds _ ht n).2
      _ = (v : ℤ) := Int.floor_natCast _

theorem c10_display_monotone_witness :
    0 < 7 ∧ displayedValue ((7 : ℕ) : ℚ) 3 ≤ displayedValue ((7 : ℕ) : ℚ) 4 ∧
    displayedValue ((7 : ℕ) : ℚ) 3 ≤ ((7 : ℕ) : ℤ) :=
  ⟨by decide, (c10_display_monotone 7 (by decide)).1 3,
   (c10_display_monotone 7 (by decide)).2 3⟩

end WolfByte
